import Mathlib

/-!
Verification of the Wha7 image-to-shopping pipeline (`src/streamlit_app.py`).

The Python source is shallowly embedded: module constants become Lean
constants, the `(gender, concept) -> category` dict becomes an association
list read with Python `dict.get` semantics, every pipeline function becomes
a Lean function over explicit data, and Python exceptions (`KeyError`,
propagated model errors) become `Except String`.  External collaborators
(Clarifai models, the eBay endpoint, image files on disk) are passed in as
explicit oracle functions, mirroring the network/file inputs the Python
code reads at the corresponding call sites.
-/

namespace Wha7

/-- Embeds `THRESHOLD = .8` (line 26).  Python float literals compare like
the rationals they denote at this precision, so confidences are `Rat`. -/
def THRESHOLD : Rat := 8/10

/-- Embeds `DEFAULT_CATEGORY = "11450"` (line 244). -/
def DEFAULT_CATEGORY : String := "11450"

/-- Embeds the `CONCEPT_TO_CATEGORY` dict literal (lines 37-239), in source
order.  The Python dict has no duplicated key, but lookup below still uses
last-binding-wins to match dict-literal semantics exactly. -/
def CONCEPT_TO_CATEGORY : List ((String × String) × String) := [
  (("women", "bag"), "169291"),
  (("men", "bag"), "169291"),
  (("men", "belt"), "2993"),
  (("women", "belt"), "3003"),
  (("men", "bowtie"), "15662"),
  (("men", "bracelet"), "137835"),
  (("women", "bracelet"), "164315"),
  (("women", "dress"), "63861"),
  (("men", "earrings"), "137856"),
  (("women", "earrings"), "164321"),
  (("women", "glasses"), "180957"),
  (("men", "glasses"), "180957"),
  (("men", "gloves"), "52347"),
  (("women", "gloves"), "105559"),
  (("women", "hair clip"), "110627"),
  (("men", "hat"), "52365"),
  (("women", "hat"), "3004"),
  (("women", "headband"), "163628"),
  (("women", "hosiery"), "11511"),
  (("men", "hosiery"), "4250"),
  (("women", "jumpsuit"), "3009"),
  (("men", "jumpsuit"), "57988"),
  (("men", "mittens"), "52347"),
  (("women", "mittens"), "105559"),
  (("men", "necklace"), "137860"),
  (("women", "necklace"), "164329"),
  (("men", "necktie"), "15662"),
  (("men", "outerwear"), "57988"),
  (("women", "outerwear"), "63862"),
  (("men", "pants"), "57989"),
  (("women", "pants"), "63863"),
  (("women", "pin/brooch"), "110626"),
  (("men", "pocket square"), "15662"),
  (("men", "ring"), "137856"),
  (("women", "ring"), "164343"),
  (("women", "romper"), "63861"),
  (("men", "scarf"), "52366"),
  (("women", "scarf"), "45238"),
  (("men", "shoes"), "93427"),
  (("women", "shoes"), "3034"),
  (("men", "shorts"), "15689"),
  (("women", "shorts"), "11555"),
  (("women", "skirt"), "63864"),
  (("men", "socks"), "4250"),
  (("women", "socks"), "11511"),
  (("men", "sunglasses"), "179247"),
  (("women", "sunglasses"), "179247"),
  (("men", "suspenders"), "15662"),
  (("men", "swimwear"), "15690"),
  (("women", "swimwear"), "63867"),
  (("men", "tie clip"), "15662"),
  (("women", "top"), "53159"),
  (("men", "top"), "1059"),
  (("men", "vest"), "15691"),
  (("women", "vest"), "63866"),
  (("men", "watch"), "31387"),
  (("women", "watch"), "31387"),
  (("men", "t-shirt"), "15687"),
  (("women", "t-shirt"), "15724"),
  (("men", "jeans"), "11483"),
  (("women", "jeans"), "11554"),
  (("men", "jacket"), "57988"),
  (("women", "jacket"), "63862"),
  (("men", "coat"), "57988"),
  (("women", "coat"), "63862"),
  (("men", "suit"), "3001"),
  (("women", "suit"), "63865"),
  (("men", "sweater"), "11484"),
  (("women", "sweater"), "63866"),
  (("women", "blouse"), "53159"),
  (("men", "hoodie"), "11484"),
  (("women", "hoodie"), "63866"),
  (("women", "cardigan"), "63866"),
  (("men", "cardigan"), "11484"),
  (("women", "leggings"), "169001"),
  (("women", "bikini"), "63867"),
  (("women", "gown"), "15720"),
  (("men", "cape"), "57988"),
  (("women", "cape"), "63862"),
  (("men", "mask"), "183477"),
  (("women", "mask"), "183477"),
  (("men", "overalls"), "57988"),
  (("women", "overalls"), "11554"),
  (("men", "poncho"), "57988"),
  (("women", "poncho"), "63862"),
  (("women", "sarong"), "63867"),
  (("women", "shawl"), "45238"),
  (("men", "sleepwear"), "11510"),
  (("women", "sleepwear"), "63861"),
  (("men", "tracksuit"), "15692"),
  (("women", "tracksuit"), "11554"),
  (("men", "trousers"), "57989"),
  (("women", "trousers"), "63863"),
  (("men", "backpack"), "169291"),
  (("women", "backpack"), "169291"),
  (("women", "bandeau"), "63867"),
  (("men", "beanie"), "52382"),
  (("women", "beanie"), "52382"),
  (("men", "beret"), "52382"),
  (("women", "beret"), "52382"),
  (("men", "bermuda shorts"), "15689"),
  (("women", "bermuda shorts"), "11555"),
  (("men", "biker jacket"), "57988"),
  (("women", "biker jacket"), "63862"),
  (("women", "bikini bottom"), "63867"),
  (("women", "bikini set"), "63867"),
  (("women", "bikini top"), "63867"),
  (("men", "blazer"), "3002"),
  (("women", "blazer"), "63865"),
  (("women", "boatneck/bateau"), "53159"),
  (("men", "bomber"), "57988"),
  (("women", "bomber"), "63862"),
  (("women", "booties"), "3034"),
  (("women", "bra"), "63853"),
  (("unisex", "bucket hat"), "52382"),
  (("women", "camisole"), "11514"),
  (("men", "cape/poncho"), "57988"),
  (("women", "cape/poncho"), "63862"),
  (("women", "capris"), "63863"),
  (("women", "capsleeve"), "53159"),
  (("men", "cargo pants"), "57989"),
  (("women", "cargo pants"), "63863"),
  (("men", "cargo shorts"), "15689"),
  (("women", "cargo shorts"), "11555"),
  (("men", "denim jacket"), "57988"),
  (("women", "denim jacket"), "63862"),
  (("men", "duffle coat"), "57988"),
  (("women", "duffle coat"), "63862"),
  (("unisex", "fedora"), "52382"),
  (("men", "field jacket"), "57988"),
  (("women", "field jacket"), "63862"),
  (("women", "flats"), "3034"),
  (("men", "fleece"), "11484"),
  (("women", "fleece"), "63866"),
  (("men", "flip-flops"), "11504"),
  (("women", "flip-flops"), "3034"),
  (("women", "floppy hat"), "3004"),
  (("women", "halter"), "11514"),
  (("men", "loafers"), "93427"),
  (("women", "loafers"), "3034"),
  (("women", "maxi dress"), "63861"),
  (("women", "maxi skirt"), "63864"),
  (("women", "midi dress"), "63861"),
  (("women", "midi skirt"), "63864"),
  (("women", "mini dress"), "63861"),
  (("women", "mini skirt"), "63864"),
  (("women", "mockneck"), "53159"),
  (("women", "mules"), "3034"),
  (("unisex", "newsboy/flat cap"), "52382"),
  (("women", "one piece swimsuit"), "63867"),
  (("men", "oxfords"), "93427"),
  (("women", "oxfords"), "3034"),
  (("men", "pajamas"), "11510"),
  (("women", "pajamas"), "63861"),
  (("men", "parka"), "57988"),
  (("women", "parka"), "63862"),
  (("men", "peacoat"), "57988"),
  (("women", "peacoat"), "63862"),
  (("men", "polo"), "1059"),
  (("women", "polo"), "53159"),
  (("men", "puffer coat"), "57988"),
  (("women", "puffer coat"), "63862"),
  (("men", "puffer vest"), "15691"),
  (("women", "puffer vest"), "63866"),
  (("women", "pumps"), "3034"),
  (("men", "rain boots"), "93427"),
  (("women", "rain boots"), "3034"),
  (("men", "sandals"), "11504"),
  (("women", "sandals"), "3034"),
  (("women", "satchel"), "169291"),
  (("men", "shirt"), "1059"),
  (("women", "shirt"), "53159"),
  (("men", "short-sleeve"), "1059"),
  (("women", "short-sleeve"), "53159"),
  (("women", "shortalls"), "11554"),
  (("women", "sleeveless"), "53159"),
  (("men", "sleeveless"), "1059"),
  (("women", "shoulder bag"), "169291"),
  (("men", "sneakers"), "93427"),
  (("women", "sneakers"), "3034"),
  (("women", "spaghetti strap"), "11514"),
  (("women", "strapless"), "53159"),
  (("men", "suit jacketsuit pants"), "3001"),
  (("men", "sweater vest"), "11484"),
  (("women", "sweater vest"), "63866"),
  (("men", "sweatpants"), "11510"),
  (("women", "sweatpants"), "11554"),
  (("men", "sweatshirt"), "11484"),
  (("women", "sweatshirt"), "63866"),
  (("men", "swim trunks"), "15690"),
  (("men", "tank"), "15692"),
  (("women", "tank"), "11514"),
  (("women", "tote bag"), "169291"),
  (("unisex", "trapper hat"), "52382"),
  (("men", "trenchcoat"), "57988"),
  (("women", "trenchcoat"), "63862"),
  (("men", "waistcoat"), "15691"),
  (("women", "waistcoat"), "63865"),
  (("women", "wedges"), "3034"),
  (("women", "wide leg pants"), "63863"),
  (("women", "wristlet and clutch"), "169291")]

/-- Python `dict.get k default` over an association list built from a dict
literal: the last binding of a key wins. -/
def dict_get (m : List ((String × String) × String)) (k : String × String)
    (default : String) : String :=
  match m.reverse.find? (fun p => p.1 == k) with
  | some p => p.2
  | none => default

/-- Embeds `get_category` (lines 247-248):
`CONCEPT_TO_CATEGORY.get(concept, DEFAULT_CATEGORY)`. -/
def get_category (concept : String × String) : String :=
  dict_get CONCEPT_TO_CATEGORY concept DEFAULT_CATEGORY

set_option maxRecDepth 4096 in
lemma concept_to_category_values_nonempty :
    ∀ p ∈ CONCEPT_TO_CATEGORY, p.2 ≠ "" := by decide

lemma get_category_ne_empty (k : String × String) : get_category k ≠ "" := by
  unfold get_category dict_get
  cases h : CONCEPT_TO_CATEGORY.reverse.find? (fun p => p.1 == k) with
  | none => decide
  | some p =>
      have hp : p ∈ CONCEPT_TO_CATEGORY.reverse := List.mem_of_find?_eq_some h
      exact concept_to_category_values_nonempty p (List.mem_reverse.mp hp)

/-- C1: category resolution is total: `get_category` is a total function (the
Python body is a single `dict.get`, which never raises); on every key it
returns the table entry when the key is bound, the default `"11450"` when it
is not, and in both cases the result is a non-empty string. -/
theorem get_category_total (k : String × String) :
    get_category k ≠ "" ∧
    (CONCEPT_TO_CATEGORY.reverse.find? (fun p => p.1 == k) = none →
      get_category k = DEFAULT_CATEGORY) ∧
    (∀ p, CONCEPT_TO_CATEGORY.reverse.find? (fun p => p.1 == k) = some p →
      get_category k = p.2) := by
  refine ⟨get_category_ne_empty k, ?_, ?_⟩
  · intro h
    unfold get_category dict_get
    rw [h]
  · intro p h
    unfold get_category dict_get
    rw [h]

/-- C1 witness: a bound key resolves to its table id, an unbound key to the
default, and both results are non-empty. -/
theorem get_category_total_witness :
    get_category ("women", "jacket") = "63862" ∧
    get_category ("men", "tutu") = DEFAULT_CATEGORY ∧
    get_category ("men", "tutu") ≠ "" := by
  refine ⟨?_, ?_, (get_category_total ("men", "tutu")).1⟩
  · exact (get_category_total ("women", "jacket")).2.2
      ((("women", "jacket"), "63862")) (by decide)
  · exact (get_category_total ("men", "tutu")).2.1 (by decide)

/-- Size of an image on disk, as read by `Image.open(path).size`. -/
structure PImage where
  width : Rat
  height : Rat
deriving DecidableEq

/-- The crop produced by `Image.crop`: it owns its source path plus the
pixel-space box, standing for the newly allocated cropped buffer. -/
structure CroppedImage where
  source : String
  box : Rat × Rat × Rat × Rat
deriving DecidableEq

/-- Embeds `crop_image` (lines 573-577).  `load` stands for
`Image.open(image_path)`; the box is
`(left_col * width, top_row * height, right_col * width, bottom_row * height)`
exactly as built on line 576. -/
def crop_image (load : String → PImage) (image_path : String)
    (top_row left_col bottom_row right_col : Rat) : CroppedImage :=
  let img := load image_path
  { source := image_path,
    box := (left_col * img.width, top_row * img.height,
            right_col * img.width, bottom_row * img.height) }

/-- One `(name, value)` concept of a model response. -/
structure Concept where
  name : String
  value : Rat
deriving DecidableEq

/-- A bounding box of a detection response, fractional coordinates. -/
structure BoundingBox where
  top_row : Rat
  left_col : Rat
  bottom_row : Rat
  right_col : Rat
deriving DecidableEq

/-- One region of a detection response: `region.region_info.bounding_box`
and `region.data.concepts` flattened into the two fields the code reads. -/
structure Region where
  bounding_box : BoundingBox
  concepts : List Concept
deriving DecidableEq

/-- One element of `prediction_response.outputs`, carrying
`outputs[i].data.regions`. -/
structure DetectOutput where
  regions : List Region
deriving DecidableEq

/-- A detection-model response: the `outputs` list the code tests for
truthiness and indexes at 0. -/
structure PredictionResponse where
  outputs : List DetectOutput
deriving DecidableEq

/-- One record of the `image_data` list built by `list_image_paths` and
enriched by `s3_write_urls` and `analyze_images`: the dict keys
`phone_number`, `image_path`, `url`, and the optional `prediction` key
(absent unless `analyze_images` stored a response with truthy outputs). -/
structure ImageRecord where
  phone_number : String
  image_path : String
  url : String
  prediction : Option PredictionResponse := none

/-- Embeds `analyze_images` (lines 429-438): per record, call
`model.predict_by_url` inside `try`; on success with truthy `outputs` set
the `prediction` key, on a falsy response or any exception leave the record
unchanged (the exception is only logged). -/
def analyze_images (image_data : List ImageRecord)
    (model : String → Except String PredictionResponse) : List ImageRecord :=
  image_data.map (fun data =>
    match model data.url with
    | Except.ok pr => if pr.outputs.isEmpty then data
                      else { data with prediction := some pr }
    | Except.error _ => data)

/-- One ConceptCandidate dict: built by `extract_user_concepts` with keys
`concept_image` and `concept_name`; `tags` is added by `add_tags` and
`top_links` by `search_ebay_with_concepts`, so those keys are `Option`. -/
structure Candidate where
  concept_image : CroppedImage
  concept_name : String
  tags : Option (List Concept) := none
  top_links : Option (List String) := none

/-- The inner concept loop of `extract_user_concepts` (lines 505-513) for
one region: each concept with `concept.value > THRESHOLD` appends one
candidate cropped from the original image with the region box. -/
def extract_region_candidates (load : String → PImage) (image_path : String)
    (bb : BoundingBox) : List Concept → List Candidate
  | [] => []
  | c :: rest =>
      if THRESHOLD < c.value then
        { concept_image := crop_image load image_path
            bb.top_row bb.left_col bb.bottom_row bb.right_col,
          concept_name := c.name.toLower } ::
          extract_region_candidates load image_path bb rest
      else extract_region_candidates load image_path bb rest

/-- Embeds `extract_user_concepts` (lines 493-514).  For each record whose
phone matches, the code subscripts `data['prediction']` — a `KeyError` when
`analyze_images` never set that key — then, when `outputs` is truthy, walks
`outputs[0].data.regions` appending candidates region by region. -/
def extract_user_concepts (load : String → PImage) :
    List ImageRecord → String → Except String (List Candidate)
  | [], _ => Except.ok []
  | data :: rest, user_phone =>
      if data.phone_number = user_phone then
        match data.prediction with
        | none => Except.error "KeyError: prediction"
        | some pr =>
            let here := match pr.outputs with
              | [] => []
              | out :: _ =>
                  out.regions.flatMap (fun r =>
                    extract_region_candidates load data.image_path
                      r.bounding_box r.concepts)
            match extract_user_concepts load rest user_phone with
            | Except.ok more => Except.ok (here ++ more)
            | Except.error e => Except.error e
      else extract_user_concepts load rest user_phone

/-- C7: crop geometry: on a 1000x500 image the box
(top=0.1, left=0.2, bottom=0.5, right=0.6) converts to the pixel region
(200, 50)-(600, 250), a 400x200 crop. -/
theorem crop_image_geometry :
    (crop_image (fun _ => { width := 1000, height := 500 }) "img.png"
        (1/10) (2/10) (5/10) (6/10)).box = (200, 50, 600, 250) ∧
    (600 : Rat) - 200 = 400 ∧ (250 : Rat) - 50 = 200 := by
  refine ⟨?_, by norm_num, by norm_num⟩
  simp [crop_image]
  norm_num

/-- C2: the per-region candidate extraction keeps exactly the concepts with
confidence strictly above the 0.8 threshold, in order, each cropped from the
original image with the region box; a confidence of exactly 0.8 is excluded
and one of 0.8000001 is included. -/
theorem extract_threshold_strict (load : String → PImage) (image_path : String)
    (bb : BoundingBox) (cs : List Concept) :
    extract_region_candidates load image_path bb cs =
      (cs.filter (fun c => THRESHOLD < c.value)).map (fun c =>
        { concept_image := crop_image load image_path
            bb.top_row bb.left_col bb.bottom_row bb.right_col,
          concept_name := c.name.toLower }) ∧
    extract_region_candidates load image_path bb
      [{ name := "jacket", value := 8/10 }] = [] ∧
    (extract_region_candidates load image_path bb
      [{ name := "jacket", value := 8000001/10000000 }]).length = 1 := by
  refine ⟨?_, ?_, ?_⟩
  · induction cs with
    | nil => rfl
    | cons c rest ih =>
        by_cases h : THRESHOLD < c.value
        · simp [extract_region_candidates, h, ih]
        · simp [extract_region_candidates, h, ih]
  · have h : ¬ THRESHOLD < (8 : Rat)/10 := by norm_num [THRESHOLD]
    simp [extract_region_candidates, h]
  · have h : THRESHOLD < (8000001 : Rat)/10000000 := by norm_num [THRESHOLD]
    simp [extract_region_candidates, h]

/-- C5 (failing input): in a two-image message where the detection call for
the first image errors and the second succeeds with a region above
threshold, `analyze_images` contains the error (the second record does get
a prediction), but `extract_user_concepts` then raises `KeyError` on the
first record's missing `prediction` key, aborting the whole message instead
of treating that image as having no regions. -/
theorem detection_failure_aborts_extraction :
    extract_user_concepts (fun _ => { width := 100, height := 100 })
      (analyze_images
        [ { phone_number := "p", image_path := "a.png", url := "u1" },
          { phone_number := "p", image_path := "b.png", url := "u2" } ]
        (fun u => if u = "u1" then Except.error "model down"
          else Except.ok { outputs := [ { regions := [
            { bounding_box :=
                { top_row := 1/10, left_col := 1/10,
                  bottom_row := 1/2, right_col := 1/2 },
              concepts := [ { name := "Jacket", value := 9/10 } ] } ] } ] }))
      "p" = Except.error "KeyError: prediction" ∧
    List.map (fun d : ImageRecord => d.prediction.isSome) (analyze_images
        [ { phone_number := "p", image_path := "a.png", url := "u1" },
          { phone_number := "p", image_path := "b.png", url := "u2" } ]
        (fun u => if u = "u1" then Except.error "model down"
          else Except.ok { outputs := [ { regions := [
            { bounding_box :=
                { top_row := 1/10, left_col := 1/10,
                  bottom_row := 1/2, right_col := 1/2 },
              concepts := [ { name := "Jacket", value := 9/10 } ] } ] } ] }))
      = [false, true] := by
  constructor
  · rfl
  · rfl

/-- Captures characters up to the next `"` on the same line: the lazy group
of the Python regex `name: \x22(.*?)\x22`, whose `.` does not match a
newline, so a newline before the closing quote makes the match fail. -/
def capture_to_quote : List Char → Option (List Char)
  | [] => none
  | c :: rest =>
      if c = '"' then some []
      else if c = '\n' then none
      else (capture_to_quote rest).map (fun cs => c :: cs)

/-- Left-to-right scan for the first match of `name: \x22(.*?)\x22`: at each
position, try the literal prefix and a same-line closing quote; on failure
resume from the next character, as the regex engine does. -/
def scan_name_capture : List Char → Option (List Char)
  | [] => none
  | c :: rest =>
      if List.isPrefixOf ("name: \"".toList) (c :: rest) then
        match capture_to_quote ((c :: rest).drop 7) with
        | some cap => some cap
        | none => scan_name_capture rest
      else scan_name_capture rest

/-- Embeds `extract_concepts` (lines 516-521): the first capture of
`re.findall` for the pattern `name: \x22(.*?)\x22`, or `None`. -/
def extract_concepts (text : String) : Option String :=
  (scan_name_capture text.toList).map (fun cs => String.mk cs)

/-- Modelled adapter for `str()` of one Clarifai protobuf `Concept`: its text
format prints the `id`, `name` and `value` fields on their own lines, the
`name` line being `name: \x22...\x22`. -/
def py_str_concept (c : Concept) : String :=
  "id: \"ai\"\nname: \"" ++ c.name ++ "\"\nvalue: " ++ toString c.value ++ "\n"

/-- Modelled adapter for `str(concepts_list)` as called on line 593: the
Python `str` of a list of protobuf concepts, elements joined by `, ` between
brackets. -/
def py_str_concepts (cs : List Concept) : String :=
  "[" ++ String.intercalate ", " (cs.map py_str_concept) ++ "]"

/-- Python `repr` of a plain string (no escapes needed for the names in
play): single quotes around the text. -/
def py_repr_str (s : String) : String := "\'" ++ s ++ "\'"

/-- Python f-string rendering of the pair bound to `concept_name` on
line 593: `gender,extract_concepts(...)` builds a tuple, and formatting a
tuple uses `repr` of its parts, `None` rendered bare. -/
def py_tuple_repr (g : String) (label : Option String) : String :=
  "(" ++ py_repr_str g ++ ", " ++
    (match label with
     | some s => py_repr_str s
     | none => "None") ++ ")"

/-- One element of a classification response's `outputs`, carrying
`outputs[i].data.concepts`. -/
structure ConceptsOutput where
  concepts : List Concept
deriving DecidableEq

/-- A `predict_by_bytes` response (apparel classification or gender model):
the `outputs` list the code tests for truthiness and indexes at 0. -/
structure ClassifyResponse where
  outputs : List ConceptsOutput
deriving DecidableEq

/-- Embeds `add_tags` (lines 447-490) for pipeline candidates, whose
`concept_image` is always a PIL image object (the string branches of the
body re-load from URL or path and do not apply).  Per candidate the model is
called on the crop bytes inside `try`: a truthy `outputs` stores
`outputs[0].data.concepts` under the `tags` key, a falsy response or logged
exception leaves the candidate unchanged. -/
def add_tags (concepts : List Candidate)
    (model : CroppedImage → Except String ClassifyResponse) : List Candidate :=
  concepts.map (fun data =>
    match model data.concept_image with
    | Except.ok pr =>
        match pr.outputs with
        | [] => data
        | out :: _ => { data with tags := some out.concepts }
    | Except.error _ => data)

/-- Python `max(concepts_list, key=lambda c: c.value)`: `none` on an empty
list (where CPython raises `ValueError`), else the first element of maximal
value (later elements replace only on strictly greater keys). -/
def py_max_by (f : Concept → Rat) : List Concept → Option Concept
  | [] => none
  | c :: rest => some (rest.foldl (fun acc x => if f acc < f x then x else acc) c)

/-- The inner gender-model attempt of `get_gender` (lines 553-567): predict
by bytes inside the inner `try`; on a truthy `outputs`, take the concept of
maximal value and answer `men` for `Masculine`, `women` otherwise; every
failure path (exception, falsy outputs, `ValueError` from `max` on an empty
concept list) is caught and yields no answer. -/
def gender_attempt (gender_model : CroppedImage → Except String ClassifyResponse)
    (img : CroppedImage) : Option String :=
  match gender_model img with
  | Except.error _ => none
  | Except.ok resp =>
      match resp.outputs with
      | [] => none
      | out :: _ =>
          match py_max_by (fun c => c.value) out.concepts with
          | none => none
          | some top => some (if top.name = "Masculine" then "men" else "women")

/-- The concept loop of `get_gender` (lines 540-567) over one face region:
the first concept above threshold whose gender attempt answers ends the
whole function; failed attempts fall through to the next concept. -/
def gender_scan_concepts (gender_model : CroppedImage → Except String ClassifyResponse)
    (img : CroppedImage) : List Concept → Option String
  | [] => none
  | c :: rest =>
      if THRESHOLD < c.value then
        match gender_attempt gender_model img with
        | some g => some g
        | none => gender_scan_concepts gender_model img rest
      else gender_scan_concepts gender_model img rest

/-- The region loop of `get_gender` (lines 535-567): regions in order, each
cropped with its own box from the original image. -/
def gender_scan_regions (load : String → PImage)
    (gender_model : CroppedImage → Except String ClassifyResponse)
    (image_path : String) : List Region → Option String
  | [] => none
  | r :: rest =>
      let img := crop_image load image_path r.bounding_box.top_row
        r.bounding_box.left_col r.bounding_box.bottom_row r.bounding_box.right_col
      match gender_scan_concepts gender_model img r.concepts with
      | some g => some g
      | none => gender_scan_regions load gender_model image_path rest

/-- Embeds `get_gender` (lines 523-570).  Per image: the face-model call and
all region processing sit in an outer `try` whose handler returns `women`;
a falsy face response or an exhausted region scan moves to the next image;
falling off the end of the image list returns Python `None`. -/
def get_gender (load : String → PImage) :
    List ImageRecord → (String → Except String PredictionResponse) →
    (CroppedImage → Except String ClassifyResponse) → Option String
  | [], _, _ => none
  | data :: rest, face_model, gender_model =>
      match face_model data.url with
      | Except.error _ => some "women"
      | Except.ok pr =>
          match pr.outputs with
          | [] => get_gender load rest face_model gender_model
          | out :: _ =>
              match gender_scan_regions load gender_model data.image_path out.regions with
              | some g => some g
              | none => get_gender load rest face_model gender_model

/-- One element of an item's `categories` list, with its `categoryId`. -/
structure ItemCategory where
  categoryId : String
deriving DecidableEq

/-- One eBay item summary.  `categories` is `Option` because the code
subscripts `item[\x27categories\x27]` (a `KeyError` when absent) while
`itemWebUrl` is read with `.get` (a `None` when absent). -/
structure Item where
  categories : Option (List ItemCategory) := none
  itemWebUrl : Option String := none
deriving DecidableEq

/-- An eBay search HTTP response: status code plus the parsed body's
`itemSummaries` read with `.get(\x27itemSummaries\x27, [])`. -/
structure EbayResponse where
  status_code : Nat
  itemSummaries : List Item := []
deriving DecidableEq

/-- Python `str` of an optional string in an f-string: `None` rendered as
the four letters. -/
def py_str_opt : Option String → String
  | some s => s
  | none => "None"

/-- The affiliate URL built on line 627:
`item_url` followed by `&mkcid=1&mkrid=<aff>&campid=<aff>&toolid=10001`. -/
def affiliate_url (affiliate_id : String) (item_url : Option String) : String :=
  py_str_opt item_url ++ "&mkcid=1&mkrid=" ++ affiliate_id ++ "&campid=" ++
    affiliate_id ++ "&toolid=10001"

/-- The `correct_category` flag of lines 620-623: whether any subcategory of
the item reports exactly the resolved category id. -/
def item_in_category (category_id : String) (cats : List ItemCategory) : Bool :=
  cats.any (fun subcat => category_id == subcat.categoryId)

/-- The result-collection loop of lines 618-628: per item, read
`item[\x27categories\x27]` (raising `KeyError` when absent), then append the
affiliate URL when the category matches and fewer than 3 links are held. -/
def build_top_links (category_id affiliate_id : String) :
    List Item → List String → Except String (List String)
  | [], acc => Except.ok acc
  | item :: rest, acc =>
      match item.categories with
      | none => Except.error "KeyError: categories"
      | some cats =>
          if item_in_category category_id cats ∧ acc.length < 3 then
            build_top_links category_id affiliate_id rest
              (acc ++ [affiliate_url affiliate_id item.itemWebUrl])
          else build_top_links category_id affiliate_id rest acc

/-- The retry loop of lines 601-614, `for attempt in range(attempts)` with
`attempts = 3`: stop on 200; on a 5xx log, sleep `2 ** attempt` seconds and
go round again (the sleep also runs after the final 5xx attempt); stop at
once on any other status.  `responses` gives the response of each POST;
the result is (number of POSTs made, sleeps performed in order, the
response bound after the loop). -/
def retry_loop (responses : Nat → EbayResponse) :
    Nat → Nat → List Nat → Nat × List Nat × EbayResponse
  | attempt, 0, sleeps => (attempt, sleeps.reverse, responses (attempt - 1))
  | attempt, fuel + 1, sleeps =>
      let r := responses attempt
      if r.status_code = 200 then (attempt + 1, sleeps.reverse, r)
      else if 500 ≤ r.status_code then
        if fuel = 0 then (attempt + 1, (2 ^ attempt :: sleeps).reverse, r)
        else retry_loop responses (attempt + 1) fuel (2 ^ attempt :: sleeps)
      else (attempt + 1, sleeps.reverse, r)

/-- The category id the search uses (line 595): Python calls
`get_category(concept_name)` where `concept_name` is the tuple
`(gender, extract_concepts(str(tags)))`; when the extraction returns `None`
the tuple `(gender, None)` is bound to no table entry, so `dict.get` yields
the default, which the option split mirrors. -/
def resolved_category (gender : String) (ts : List Concept) : String :=
  match extract_concepts (py_str_concepts ts) with
  | some s => get_category (gender, s)
  | none => DEFAULT_CATEGORY

/-- The text interpolated as `q=` in the endpoint f-string (line 597): the
Python rendering of the tuple bound to `concept_name` on line 593. -/
def search_query_text (gender : String) (ts : List Concept) : String :=
  py_tuple_repr gender (extract_concepts (py_str_concepts ts))

/-- The endpoint built on lines 596-600: with a truthy category id the base
URL carries `q`, `category_ids` and `aspect_filter`; otherwise the bare
base (a dead branch, since `get_category` never returns an empty string). -/
def search_endpoint (base gender : String) (ts : List Concept) : String :=
  let category_id := resolved_category gender ts
  if category_id ≠ "" then
    base ++ "?q=" ++ search_query_text gender ts ++ "&category_ids=" ++
      category_id ++ "&aspect_filter=categoryId:" ++ category_id
  else base

/-- The per-candidate body of `search_ebay_with_concepts` (lines 585-632):
read `concept[\x27tags\x27]` (raising `KeyError` when tagging never stored
it), build the endpoint, POST with the retry loop, and on a final 200
collect the filtered links, otherwise store an empty list.  `net` maps an
endpoint and attempt number to that POST's response. -/
def search_one_candidate (base affiliate_id gender : String)
    (net : String → Nat → EbayResponse) (c : Candidate) : Except String Candidate :=
  match c.tags with
  | none => Except.error "KeyError: tags"
  | some ts =>
      let category_id := resolved_category gender ts
      let endpoint := search_endpoint base gender ts
      let result := retry_loop (net endpoint) 0 3 []
      let response := result.2.2
      if response.status_code = 200 then
        match build_top_links category_id affiliate_id response.itemSummaries [] with
        | Except.ok links => Except.ok { c with top_links := some links }
        | Except.error e => Except.error e
      else Except.ok { c with top_links := some [] }

/-- Embeds `search_ebay_with_concepts` (lines 580-633): the candidate loop
in order, an uncaught exception from any candidate propagating out of the
function.  The access token only feeds the auth header and is omitted; the
secret `EBAY_API_ENDPOINT` is the `base` parameter. -/
def search_ebay_with_concepts (base affiliate_id gender : String)
    (net : String → Nat → EbayResponse) :
    List Candidate → Except String (List Candidate)
  | [] => Except.ok []
  | c :: rest =>
      match search_one_candidate base affiliate_id gender net c with
      | Except.error e => Except.error e
      | Except.ok c2 =>
          match search_ebay_with_concepts base affiliate_id gender net rest with
          | Except.error e => Except.error e
          | Except.ok rest2 => Except.ok (c2 :: rest2)

/-- C3: three consecutive 503 responses give exactly 3 POSTs (the fuel is
`range(3)`, so no 4th), sleeps of 1s and 2s between the attempts (the loop
also sleeps 4s after the final failed attempt before giving up), and a
candidate ending with `top_links = []` instead of an exception; a first
response that is neither 200 nor 5xx stops after a single POST. -/
theorem retry_cap_and_backoff :
    (∀ rs : Nat → EbayResponse, (∀ i, i < 3 → (rs i).status_code = 503) →
      retry_loop rs 0 3 [] = (3, [1, 2, 4], rs 2)) ∧
    (∀ (base affiliate_id gender : String) (rs : Nat → EbayResponse)
        (c : Candidate) (ts : List Concept), c.tags = some ts →
      (∀ i, i < 3 → (rs i).status_code = 503) →
      search_one_candidate base affiliate_id gender (fun _ => rs) c =
        Except.ok { c with top_links := some [] }) ∧
    (∀ rs : Nat → EbayResponse, (rs 0).status_code ≠ 200 →
      (rs 0).status_code < 500 → retry_loop rs 0 3 [] = (1, [], rs 0)) := by
  have hloop : ∀ rs : Nat → EbayResponse, (∀ i, i < 3 → (rs i).status_code = 503) →
      retry_loop rs 0 3 [] = (3, [1, 2, 4], rs 2) := by
    intro rs h
    have h0 := h 0 (by norm_num)
    have h1 := h 1 (by norm_num)
    have h2 := h 2 (by norm_num)
    simp [retry_loop, h0, h1, h2]
  refine ⟨hloop, ?_, ?_⟩
  · intro base affiliate_id gender rs c ts htags h
    unfold search_one_candidate
    rw [htags]
    have := hloop rs h
    simp only [this]
    have h2 := h 2 (by norm_num)
    simp [h2]
  · intro rs hne hlt
    unfold retry_loop
    simp only [if_neg hne]
    have : ¬ (500 ≤ (rs 0).status_code) := by omega
    simp [this]

/-- C3 witness: a network always answering 503 yields 3 attempts, sleeps
[1, 2, 4] and an empty-links candidate; a network answering 404 first
yields a single attempt. -/
theorem retry_cap_and_backoff_witness :
    retry_loop (fun _ => { status_code := 503 }) 0 3 [] =
      (3, [1, 2, 4], { status_code := 503 }) ∧
    search_one_candidate "E" "A" "women" (fun _ _ => { status_code := 503 })
      { concept_image := { source := "a.png", box := (0, 0, 0, 0) },
        concept_name := "jacket", tags := some [] } =
      Except.ok
        { concept_image := { source := "a.png", box := (0, 0, 0, 0) },
          concept_name := "jacket", tags := some [], top_links := some [] } ∧
    retry_loop (fun _ => { status_code := 404 }) 0 3 [] =
      (1, [], { status_code := 404 }) := by
  refine ⟨retry_cap_and_backoff.1 _ (by intro i _; rfl), ?_, ?_⟩
  · exact retry_cap_and_backoff.2.1 "E" "A" "women" _ _ [] rfl (by intro i _; rfl)
  · exact retry_cap_and_backoff.2.2 _ (by decide) (by decide)

lemma build_top_links_spec (category_id affiliate_id : String) :
    ∀ (items : List Item) (acc : List String),
      (∀ it ∈ items, it.categories.isSome) →
      build_top_links category_id affiliate_id items acc =
        Except.ok (acc ++
          ((items.filter (fun it =>
              item_in_category category_id (it.categories.getD []))).take
            (3 - acc.length)).map
            (fun it => affiliate_url affiliate_id it.itemWebUrl)) := by
  intro items
  induction items with
  | nil => intro acc _; simp [build_top_links]
  | cons item rest ih =>
      intro acc h
      have hhead : item.categories.isSome := h item (by simp)
      obtain ⟨cats, hc⟩ := Option.isSome_iff_exists.mp hhead
      have hrest : ∀ it ∈ rest, it.categories.isSome := by
        intro it hit; exact h it (by simp [hit])
      simp only [build_top_links, hc, List.filter_cons, Option.getD_some]
      by_cases hcorr : item_in_category category_id cats = true
      · by_cases hlen : acc.length < 3
        · rw [if_pos ⟨hcorr, hlen⟩, ih _ hrest, if_pos hcorr]
          have htake : 3 - acc.length = (3 - (acc.length + 1)) + 1 := by omega
          rw [htake, List.take_succ_cons]
          simp
        · rw [if_neg (by intro hand; exact hlen hand.2), ih _ hrest, if_pos hcorr]
          have htake : 3 - acc.length = 0 := by omega
          simp [htake]
      · rw [if_neg (by intro hand; exact hcorr hand.1), ih _ hrest,
          if_neg (by simpa using hcorr)]

/-- C4: after a final 200 response whose item summaries all carry a
`categories` list, a candidate's `top_links` is exactly the first at most 3
items, in response order, whose categories contain the resolved category id,
each rendered as an affiliate URL; every other item is excluded. -/
theorem search_category_filter (base affiliate_id gender : String)
    (resp : EbayResponse) (c : Candidate) (ts : List Concept)
    (htags : c.tags = some ts) (h200 : resp.status_code = 200)
    (hcats : ∀ it ∈ resp.itemSummaries, it.categories.isSome) :
    search_one_candidate base affiliate_id gender (fun _ _ => resp) c =
      Except.ok
        { c with top_links := some
                     (((resp.itemSummaries.filter (fun it =>
                         item_in_category (resolved_category gender ts)
                           (it.categories.getD []))).take 3).map
                       (fun it => affiliate_url affiliate_id it.itemWebUrl)) } := by
  unfold search_one_candidate
  rw [htags]
  have hloop : retry_loop (fun _ => resp) 0 3 [] = (1, [], resp) := by
    unfold retry_loop
    simp [h200]
  simp only [hloop]
  rw [build_top_links_spec _ _ _ _ hcats]
  simp [h200]

/-- C4 witness: a 200 response with 5 items of which only the 2nd and 5th
report the resolved id `63862` among their categories yields exactly those
two affiliate links, in response order. -/
theorem search_category_filter_witness :
    search_one_candidate "E" "A" "women"
      (fun _ _ =>
        { status_code := 200,
          itemSummaries :=
            [ { categories := some [{ categoryId := "100" }],
                itemWebUrl := some "https://ebay.com/itm/1" },
              { categories := some [{ categoryId := "63862" }],
                itemWebUrl := some "https://ebay.com/itm/2" },
              { categories := some [{ categoryId := "200" }, { categoryId := "300" }],
                itemWebUrl := some "https://ebay.com/itm/3" },
              { categories := some [],
                itemWebUrl := some "https://ebay.com/itm/4" },
              { categories := some [{ categoryId := "999" }, { categoryId := "63862" }],
                itemWebUrl := some "https://ebay.com/itm/5" } ] })
      { concept_image := { source := "a.png", box := (0, 0, 0, 0) },
        concept_name := "jacket", tags := some [{ name := "jacket", value := 92/100 }] } =
      Except.ok
        { concept_image := { source := "a.png", box := (0, 0, 0, 0) },
          concept_name := "jacket",
          tags := some [{ name := "jacket", value := 92/100 }],
          top_links := some
            [ "https://ebay.com/itm/2&mkcid=1&mkrid=A&campid=A&toolid=10001",
              "https://ebay.com/itm/5&mkcid=1&mkrid=A&campid=A&toolid=10001" ] } := by
  rw [search_category_filter "E" "A" "women" _ _ [{ name := "jacket", value := 92/100 }]
    rfl rfl (by decide)]
  rfl

/-- C6 (failing input): in a batch of 3 candidates where only the 2nd has no
`tags` key (its tagging call failed), the search step raises `KeyError` on
`concept[\x27tags\x27]` instead of falling back to the candidate's
`concept_name`, so the batch aborts and no candidate past the 1st receives
`top_links`; the same batch without the untagged candidate completes, every
member receiving a `top_links` field. -/
theorem tagless_candidate_aborts_search :
    search_ebay_with_concepts "E" "A" "women" (fun _ _ => { status_code := 200 })
      [ { concept_image := { source := "a.png", box := (0, 0, 0, 0) },
          concept_name := "shirt", tags := some [] },
        { concept_image := { source := "b.png", box := (0, 0, 0, 0) },
          concept_name := "pants", tags := none },
        { concept_image := { source := "c.png", box := (0, 0, 0, 0) },
          concept_name := "hat", tags := some [] } ] =
      Except.error "KeyError: tags" ∧
    search_ebay_with_concepts "E" "A" "women" (fun _ _ => { status_code := 200 })
      [ { concept_image := { source := "a.png", box := (0, 0, 0, 0) },
          concept_name := "shirt", tags := some [] },
        { concept_image := { source := "c.png", box := (0, 0, 0, 0) },
          concept_name := "hat", tags := some [] } ] =
      Except.ok
        [ { concept_image := { source := "a.png", box := (0, 0, 0, 0) },
            concept_name := "shirt", tags := some [], top_links := some [] },
          { concept_image := { source := "c.png", box := (0, 0, 0, 0) },
            concept_name := "hat", tags := some [], top_links := some [] } ] := by
  constructor
  · rfl
  · rfl

/-- C8 counterexample: for a candidate named `jacket` whose tags carry the
label `jacket`, the text interpolated as `q=` is the Python rendering of the
tuple `(\x27women\x27, \x27jacket\x27)` — line 593 binds `concept_name` to
`gender,extract_concepts(...)`, a tuple — and not the concept name. -/
theorem query_text_is_tuple_repr_not_name :
    search_query_text "women" [{ name := "jacket", value := 92/100 }] =
      "(\'women\', \'jacket\')" ∧
    ({ concept_image := { source := "a.png", box := (0, 0, 0, 0) },
       concept_name := "jacket",
       tags := some [{ name := "jacket", value := 92/100 }] } : Candidate).concept_name =
      "jacket" ∧
    "(\'women\', \'jacket\')" ≠ "jacket" := by
  refine ⟨rfl, rfl, by decide⟩

/-- C8 (amended): when a label `n` is extracted from the candidate's tags,
the query text is the Python repr of the tuple `(gender, n)` — not the bare
label, and never the `concept_name` fallback the spec describes — while both
category filter parameters of the endpoint equal the category id resolved
from `(gender, n)`; the bare-base else-branch is dead because the resolved
id is never empty. -/
theorem search_request_shape (base gender : String) (ts : List Concept)
    (n : String) (h : extract_concepts (py_str_concepts ts) = some n) :
    search_query_text gender ts = py_tuple_repr gender (some n) ∧
    resolved_category gender ts = get_category (gender, n) ∧
    search_endpoint base gender ts =
      base ++ "?q=" ++ py_tuple_repr gender (some n) ++ "&category_ids=" ++
        get_category (gender, n) ++ "&aspect_filter=categoryId:" ++
        get_category (gender, n) := by
  have hq : search_query_text gender ts = py_tuple_repr gender (some n) := by
    unfold search_query_text
    rw [h]
  have hcat : resolved_category gender ts = get_category (gender, n) := by
    unfold resolved_category
    rw [h]
  refine ⟨hq, hcat, ?_⟩
  unfold search_endpoint
  rw [hcat, hq, if_pos (get_category_ne_empty (gender, n))]

/-- C8 witness: for the tag label `jacket` under gender `women`, the
endpoint carries the tuple-rendered query and the women's-jacket category
`63862` in both filter parameters. -/
theorem search_request_shape_witness :
    search_query_text "women" [{ name := "jacket", value := 9/10 }] =
      py_tuple_repr "women" (some "jacket") ∧
    resolved_category "women" [{ name := "jacket", value := 9/10 }] =
      get_category ("women", "jacket") ∧
    search_endpoint "E" "women" [{ name := "jacket", value := 9/10 }] =
      "E" ++ "?q=" ++ py_tuple_repr "women" (some "jacket") ++ "&category_ids=" ++
        get_category ("women", "jacket") ++ "&aspect_filter=categoryId:" ++
        get_category ("women", "jacket") :=
  search_request_shape "E" "women" [{ name := "jacket", value := 9/10 }] "jacket" rfl

/-- C9 counterexample: two totally failing messages take different fallback
values: when the face-model call errors the classifier returns `women`
(the outer `except` on line 570), but when the face model answers with no
face at all the loop falls off the end of the function and returns Python
`None` — so there is no single fixed default shared by all failing paths. -/
theorem gender_default_differs_by_path :
    get_gender (fun _ => { width := 100, height := 100 })
      [ { phone_number := "p", image_path := "a.png", url := "u" } ]
      (fun _ => Except.error "model down")
      (fun _ => Except.error "unused") = some "women" ∧
    get_gender (fun _ => { width := 100, height := 100 })
      [ { phone_number := "p", image_path := "a.png", url := "u" } ]
      (fun _ => Except.ok { outputs := [] })
      (fun _ => Except.error "unused") = none ∧
    (some "women" ≠ (none : Option String)) := by
  refine ⟨rfl, rfl, by decide⟩

/-- C9 (amended): the fallback depends on the failing path: an exception
from the face-model call on the first image returns `women` at once, while
a run in which every image's face response carries no output falls through
every image and returns `None`. -/
theorem gender_fallback_paths :
    (∀ (load : String → PImage) (data : ImageRecord) (rest : List ImageRecord)
        (face_model : String → Except String PredictionResponse)
        (gender_model : CroppedImage → Except String ClassifyResponse) (e : String),
      face_model data.url = Except.error e →
      get_gender load (data :: rest) face_model gender_model = some "women") ∧
    (∀ (load : String → PImage) (records : List ImageRecord)
        (face_model : String → Except String PredictionResponse)
        (gender_model : CroppedImage → Except String ClassifyResponse),
      (∀ r ∈ records, face_model r.url = Except.ok { outputs := [] }) →
      get_gender load records face_model gender_model = none) := by
  constructor
  · intro load data rest face_model gender_model e h
    unfold get_gender
    rw [h]
  · intro load records face_model gender_model h
    induction records with
    | nil => rfl
    | cons data rest ih =>
        have hd := h data (by simp)
        unfold get_gender
        rw [hd]
        exact ih (fun r hr => h r (by simp [hr]))

/-- C9 witness: the two fallback paths of `gender_fallback_paths` at the
concrete failing messages of the counterexample's shape, with a second image
in the list to show the error path short-circuits. -/
theorem gender_fallback_paths_witness :
    get_gender (fun _ => { width := 10, height := 10 })
      [ { phone_number := "p", image_path := "a.png", url := "u1" },
        { phone_number := "p", image_path := "b.png", url := "u2" } ]
      (fun _ => Except.error "timeout")
      (fun _ => Except.error "unused") = some "women" ∧
    get_gender (fun _ => { width := 10, height := 10 })
      [ { phone_number := "p", image_path := "a.png", url := "u1" },
        { phone_number := "p", image_path := "b.png", url := "u2" } ]
      (fun _ => Except.ok { outputs := [] })
      (fun _ => Except.error "unused") = none := by
  constructor
  · exact gender_fallback_paths.1 _ _ _ _ _ "timeout" rfl
  · exact gender_fallback_paths.2 _ _ _ _ (fun r _ => rfl)

/-- C10 counterexample: on a list holding one candidate without a `tags`
key, `search_ebay_with_concepts` raises `KeyError` instead of returning a
same-length list, so the stages are not frame-preserving on every input. -/
theorem search_rejects_untagged_list :
    search_ebay_with_concepts "E" "A" "women" (fun _ _ => { status_code := 200 })
      [ { concept_image := { source := "a.png", box := (0, 0, 0, 0) },
          concept_name := "shirt", tags := none } ] =
      Except.error "KeyError: tags" := by
  rfl

lemma search_one_candidate_frame (base affiliate_id gender : String)
    (net : String → Nat → EbayResponse) (c c2 : Candidate)
    (h : search_one_candidate base affiliate_id gender net c = Except.ok c2) :
    c2.concept_name = c.concept_name ∧ c2.concept_image = c.concept_image ∧
      c2.tags = c.tags := by
  unfold search_one_candidate at h
  cases htags : c.tags with
  | none => rw [htags] at h; exact absurd h (by simp)
  | some ts =>
      rw [htags] at h
      dsimp only at h
      split at h
      · split at h
        · obtain rfl : _ = c2 := by injection h
          exact ⟨rfl, rfl, rfl⟩
        · exact absurd h (by simp)
      · obtain rfl : _ = c2 := by injection h
        exact ⟨rfl, rfl, rfl⟩

/-- C10 (amended): `add_tags` is always a frame-preserving in-place
enrichment — same length and order, `concept_name`, `concept_image` and
`top_links` untouched, only `tags` written — and
`search_ebay_with_concepts`, whenever it returns a list at all (a candidate
without `tags` or a kept item without `categories` makes it raise instead),
returns one of the same length and order with `concept_name`,
`concept_image` and `tags` untouched, only `top_links` written. -/
theorem enrichment_frame_preservation :
    (∀ (cs : List Candidate) (model : CroppedImage → Except String ClassifyResponse),
      (add_tags cs model).map (fun c => (c.concept_name, c.concept_image, c.top_links)) =
        cs.map (fun c => (c.concept_name, c.concept_image, c.top_links))) ∧
    (∀ (base affiliate_id gender : String) (net : String → Nat → EbayResponse)
        (cs out : List Candidate),
      search_ebay_with_concepts base affiliate_id gender net cs = Except.ok out →
      out.length = cs.length ∧
        out.map (fun c => (c.concept_name, c.concept_image, c.tags)) =
          cs.map (fun c => (c.concept_name, c.concept_image, c.tags))) := by
  constructor
  · intro cs model
    induction cs with
    | nil => rfl
    | cons c rest ih =>
        simp only [add_tags, List.map_cons] at ih ⊢
        cases hm : model c.concept_image with
        | error e => simp [hm, ih]
        | ok pr =>
            cases hpr : pr.outputs with
            | nil => simp [hm, hpr, ih]
            | cons out outs => simp [hm, hpr, ih]
  · intro base affiliate_id gender net cs out h
    have hmap : out.map (fun c => (c.concept_name, c.concept_image, c.tags)) =
        cs.map (fun c => (c.concept_name, c.concept_image, c.tags)) := by
      induction cs generalizing out with
      | nil =>
          simp only [search_ebay_with_concepts, Except.ok.injEq] at h
          subst h
          rfl
      | cons c rest ih =>
          simp only [search_ebay_with_concepts] at h
          cases h1 : search_one_candidate base affiliate_id gender net c with
          | error e => rw [h1] at h; exact absurd h (by simp)
          | ok c2 =>
              rw [h1] at h
              cases h2 : search_ebay_with_concepts base affiliate_id gender net rest with
              | error e => rw [h2] at h; exact absurd h (by simp)
              | ok rest2 =>
                  rw [h2] at h
                  obtain rfl : c2 :: rest2 = out := by
                    simpa using h
                  obtain ⟨hn, hi, ht⟩ :=
                    search_one_candidate_frame base affiliate_id gender net c c2 h1
                  simp [hn, hi, ht, ih rest2 h2]
    refine ⟨?_, hmap⟩
    have := congrArg List.length hmap
    simpa using this

/-- C10 witness: a failed tagging call leaves the one-candidate list intact
apart from `tags`, and a completed search returns the same candidate with
only `top_links` written. -/
theorem enrichment_frame_preservation_witness :
    (add_tags [ { concept_image := { source := "a.png", box := (0, 0, 0, 0) },
                  concept_name := "shirt" } ] (fun _ => Except.error "down")).map
        (fun c => (c.concept_name, c.concept_image, c.top_links)) =
      ([ { concept_image := { source := "a.png", box := (0, 0, 0, 0) },
           concept_name := "shirt" } ] : List Candidate).map
        (fun c => (c.concept_name, c.concept_image, c.top_links)) ∧
    ([ { concept_image := { source := "a.png", box := (0, 0, 0, 0) },
         concept_name := "shirt", tags := some [], top_links := some [] } ] :
        List Candidate).length =
      ([ { concept_image := { source := "a.png", box := (0, 0, 0, 0) },
           concept_name := "shirt", tags := some [] } ] : List Candidate).length ∧
    ([ { concept_image := { source := "a.png", box := (0, 0, 0, 0) },
         concept_name := "shirt", tags := some [], top_links := some [] } ] :
        List Candidate).map (fun c => (c.concept_name, c.concept_image, c.tags)) =
      ([ { concept_image := { source := "a.png", box := (0, 0, 0, 0) },
           concept_name := "shirt", tags := some [] } ] : List Candidate).map
        (fun c => (c.concept_name, c.concept_image, c.tags)) := by
  refine ⟨enrichment_frame_preservation.1 _ _, ?_, ?_⟩
  · exact (enrichment_frame_preservation.2 "E" "A" "women"
      (fun _ _ => { status_code := 200 })
      [ { concept_image := { source := "a.png", box := (0, 0, 0, 0) },
          concept_name := "shirt", tags := some [] } ]
      [ { concept_image := { source := "a.png", box := (0, 0, 0, 0) },
          concept_name := "shirt", tags := some [], top_links := some [] } ]
      rfl).1
  · exact (enrichment_frame_preservation.2 "E" "A" "women"
      (fun _ _ => { status_code := 200 })
      [ { concept_image := { source := "a.png", box := (0, 0, 0, 0) },
          concept_name := "shirt", tags := some [] } ]
      [ { concept_image := { source := "a.png", box := (0, 0, 0, 0) },
          concept_name := "shirt", tags := some [], top_links := some [] } ]
      rfl).2

end Wha7
